import Mathlib

/-!
Verification of the BPMN-to-dot diagram generator (`bpm_diagram_madeye`).

This file gives a shallow embedding of `diagram_classes.py` and
`bpm_diagram.py`: XML elements become an inductive tree, the duck-typed
graph items (Node and its variants, Edge, Subprocess) become an `Item`
inductive, Python exceptions become an explicit `PyError` error type in
`Except`, and Python's bounded recursion (it raises `RecursionError` past
the interpreter's recursion limit) is made explicit with a `Nat` fuel
parameter on the functions that recurse through the XML tree.  Python
truthiness of optional strings (`None` and `""` are falsy) is modelled by
`strTruthy`.  All definitions are executable.
-/

/-- The exceptions the translated code can raise.  `unsuitableHandler` is
`UnsuitableHandlerException`; `keyError k` is a `KeyError` from
`element.attrib[k]`; `attributeError` is an `AttributeError` from calling a
method on `None` (or a missing attribute such as `end_node_id` on an
`Edge`); `indexError` from `[0]` on an empty list; `typeError` from calling
a two-argument function with one argument; `recursionError` from exceeding
the recursion limit. -/
inductive PyError where
  | unsuitableHandler
  | keyError (key : String)
  | attributeError
  | indexError
  | typeError
  | recursionError
deriving DecidableEq

/-- The `params` configuration dictionary built in `main` (always carries
exactly these three keys). -/
structure Params where
  show_flows : Bool
  show_package_names : Bool
  show_task_listeners : Bool
deriving DecidableEq

/-- Python truthiness of an optional string: `None` and `""` are falsy. -/
def strTruthy (v : Option String) : Bool :=
  match v with
  | some s => !(s == "")
  | none => false

/-- Python `str(x)` applied to an optional string (as an f-string does). -/
def opt_str (v : Option String) : String :=
  match v with
  | some s => s
  | none => "None"

/-- An lxml XML element: raw tag string (Clark notation `{ns}local`),
attribute mapping, child elements in document order, and optional text. -/
inductive Element where
  | mk (tag : String) (attrib : List (String × String)) (children : List Element)
      (text : Option String)

def Element.tag : Element → String
  | .mk t _ _ _ => t

def Element.attrib : Element → List (String × String)
  | .mk _ a _ _ => a

def Element.children : Element → List Element
  | .mk _ _ c _ => c

def Element.text : Element → Option String
  | .mk _ _ _ t => t

/-- `element.attrib.get(k)`: `None` when the attribute is absent. -/
def Element.attrib_get (e : Element) (k : String) : Option String :=
  (e.attrib.find? (fun kv => kv.1 == k)).map (fun kv => kv.2)

/-- `element.attrib[k]`: raises `KeyError` when the attribute is absent. -/
def Element.attrib_item (e : Element) (k : String) : Except PyError String :=
  match e.attrib_get k with
  | some v => .ok v
  | none => .error (.keyError k)

/-- `element.findall('.//{tag}')`: all descendants (preorder, document
order) whose raw tag equals `tag`.  The recursion through the tree is paid
for with fuel. -/
def Element.findall_fuel (tag : String) : Nat → Element → List Element
  | 0, _ => []
  | fuel + 1, e =>
    e.children.foldr
      (fun c acc => (if c.tag == tag then [c] else []) ++ Element.findall_fuel tag fuel c ++ acc)
      []

/-- `Tag`: a namespaced XML tag, fields as in `Tag.__init__`. -/
structure Tag where
  tag : String
  ns : String
deriving DecidableEq

def Tag.BPMN_NAMESPACE : String := "http://www.omg.org/spec/BPMN/20100524/MODEL"

/-- `Tag(t)` with the default BPMN namespace. -/
def Tag.bpmn (t : String) : Tag := ⟨t, Tag.BPMN_NAMESPACE⟩

/-- `Tag.__repr__` / `str(tag)`: reconstructs `{namespace}local`. -/
def Tag.str (t : Tag) : String := "\x7b" ++ t.ns ++ "\x7d" ++ t.tag

/-- Helper for `Tag.from_string`: on a REVERSED character list, split at the
first `'\x7d'` (i.e. at the LAST one of the original string, matching the
greedy group of the regex `^{(.*)}(.*)$`). -/
def breakAtBrace : List Char → Option (List Char × List Char)
  | [] => none
  | c :: rest =>
    if c = '\x7d' then some ([], rest)
    else
      match breakAtBrace rest with
      | none => none
      | some (before, after) => some (c :: before, after)

/-- Python's `$` anchor also matches just before a single trailing newline;
`re.match` therefore accepts one trailing `'\n'`, which this helper drops. -/
def trimNl (cs : List Char) : List Char :=
  match cs.getLast? with
  | some c => if c = '\n' then cs.dropLast else cs
  | none => cs

/-- `Tag.from_string`: `re.match("^{(.*)}(.*)$", s)` with greedy first
group (`.` does not match `'\n'`), returning `None` (here `none`, standing
for the `AttributeError` the caller would hit) when the regex does not
match. -/
def Tag.from_string (s : String) : Option Tag :=
  match trimNl s.data with
  | [] => none
  | c :: rest =>
    if c = '\x7b' then
      if rest.contains '\n' then none
      else
        match breakAtBrace rest.reverse with
        | none => none
        | some (revLocal, revNs) => some ⟨String.mk revLocal.reverse, String.mk revNs.reverse⟩
    else none

/-- A `taskListener` record of a `UserTask`. -/
structure TaskListener where
  event : String
  class_name : Option String
  expression : Option String
deriving DecidableEq

/-- Which `Node` subclass an item was built by, together with the extra
state that subclass stores beyond the shared `Node` fields. -/
inductive NodeKind where
  | plain
  | gateway
  | boundary (attached : String)
  | service
  | user (task_listeners : List TaskListener)
  | call
  | catchEvent
deriving DecidableEq

/-- A graph item: a `Node` (or any of its subclasses, discriminated by
`kind`), an `Edge`, or a `Subprocess`.  A `Subprocess` stores its children
`Graph` (here the ordered item list) plus the ids of the start/end nodes
its constructor located (`self.__start_node` / `self.__end_node`). -/
inductive Item where
  | node (id tag name : String) (show_id : Bool) (colour : Option String)
      (extras : List (String × Option String)) (kind : NodeKind)
  | edge (id source_node target_node : String) (name condition : Option String)
  | subprocess (id name : String) (children : List Item) (start_nid end_nid : String)

def Item.id : Item → String
  | .node i _ _ _ _ _ _ => i
  | .edge i _ _ _ _ => i
  | .subprocess i _ _ _ _ => i

/-- The `adjacent` property: `[id]` for a node, both endpoints for an edge,
and the subprocess id followed by its direct children's ids (`self.id`
extended with `self.__children.ids`). -/
def Item.adjacent : Item → List String
  | .node i _ _ _ _ _ _ => [i]
  | .edge _ s t _ _ => [s, t]
  | .subprocess i _ children _ _ => i :: children.map Item.id

/-- `isinstance(item, Node)` (every Node subclass; not Edge, not Subprocess). -/
def Item.isNode : Item → Bool
  | .node _ _ _ _ _ _ _ => true
  | _ => false

/-- `isinstance(item, Edge)`. -/
def Item.isEdge : Item → Bool
  | .edge _ _ _ _ _ => true
  | _ => false

/-- `isinstance(item, Subprocess)`. -/
def Item.isSubprocess : Item → Bool
  | .subprocess _ _ _ _ _ => true
  | _ => false

/-- The raw stored `tag` of a node item (`Node.tag` property). -/
def Item.node_tag : Item → Option String
  | .node _ t _ _ _ _ _ => some t
  | _ => none

/-- `Edge.source_node` (only edges have it). -/
def Item.source_node : Item → Option String
  | .edge _ s _ _ _ => some s
  | _ => none

/-- `Edge.target_node` (only edges have it). -/
def Item.target_node : Item → Option String
  | .edge _ _ t _ _ => some t
  | _ => none

/-- `Subprocess.name` (only subprocesses have a `name` property). -/
def Item.sp_name : Item → Option String
  | .subprocess _ n _ _ _ => some n
  | _ => none

/-- `start_node_id`: a node's own id, a subprocess's internal start-event
id; an `Edge` has no such attribute (`AttributeError`). -/
def Item.start_node_id : Item → Except PyError String
  | .node i _ _ _ _ _ _ => .ok i
  | .subprocess _ _ _ s _ => .ok s
  | .edge _ _ _ _ _ => .error .attributeError

/-- `end_node_id`: a node's own id, a subprocess's internal end-event id;
an `Edge` has no such attribute (`AttributeError`). -/
def Item.end_node_id : Item → Except PyError String
  | .node i _ _ _ _ _ _ => .ok i
  | .subprocess _ _ _ _ e => .ok e
  | .edge _ _ _ _ _ => .error .attributeError

/-- The `colour` setter used by `handle_coloured_node` (only ever applied
to plain nodes; the catch-all arm is unreachable there). -/
def Item.set_colour : Item → String → Item
  | .node i t n s _ ex k, c => .node i t n s (some c) ex k
  | it, _ => it

/-! ## Edge condition tidying (`Edge.__tidy_condition`) -/

/-- `str.replace(p, repl)` for a single-character pattern `p`. -/
def replace1 (p : Char) (repl : List Char) : List Char → List Char
  | [] => []
  | c :: rest => (if c = p then repl else [c]) ++ replace1 p repl rest

/-- `str.replace(p1p2, repl)` for a two-character pattern: left-to-right,
non-overlapping, scanning resumes after the replacement text. -/
def replace2 (p1 p2 : Char) (repl : List Char) : List Char → List Char
  | [] => []
  | [c] => [c]
  | c1 :: c2 :: rest =>
    if c1 = p1 ∧ c2 = p2 then repl ++ replace2 p1 p2 repl rest
    else c1 :: replace2 p1 p2 repl (c2 :: rest)

/-- `if condition_text.startswith('${'): condition_text = condition_text[2:]`. -/
def strip_dollar (l : List Char) : List Char :=
  if l.take 2 = ['$', '\x7b'] then l.drop 2 else l

/-- `if condition_text.endswith('}'): condition_text = condition_text[:-1]`. -/
def strip_brace (l : List Char) : List Char :=
  if l.getLast? = some '\x7d' then l.dropLast else l

/-- The body of `Edge.__tidy_condition` on character lists: strip the
`${`/`}` delimiters, escape `"` as `\"`, then append a literal `\n` after
each of `&&`, `||`, `==` (in that order, as in the `line_break` loop). -/
def tidy_list (ct : List Char) : List Char :=
  let ct := strip_dollar ct
  let ct := strip_brace ct
  let r := replace1 '"' ['\\', '"'] ct
  let r := replace2 '&' '&' ['&', '&', '\\', 'n'] r
  let r := replace2 '|' '|' ['|', '|', '\\', 'n'] r
  let r := replace2 '=' '=' ['=', '=', '\\', 'n'] r
  r

/-- `Edge.__tidy_condition`. -/
def Edge.tidy_condition (s : String) : String := String.mk (tidy_list s.data)

/-! ## Element-level class helpers on `Graph` -/

/-- `Graph.element_has_attribs`: all named attributes present AND truthy
(Python `all` over `attrib.get` results treats `""` as missing). -/
def Graph.element_has_attribs (e : Element) (attribs : List String) : Bool :=
  (attribs.map (fun a => e.attrib_get a)).all strTruthy

/-- `Graph.element_is_subprocess`. -/
def Graph.element_is_subprocess (e : Element) : Bool :=
  e.tag == Tag.str (Tag.bpmn "subProcess")

/-- `Graph.element_get_children_with_tag`: direct children whose raw tag
equals `str(tag)`. -/
def Graph.element_get_children_with_tag (e : Element) (tag : Tag) : List Element :=
  e.children.filter (fun item => item.tag == Tag.str tag)

/-- `Graph.element_get_first_child_with_tag`. -/
def Graph.element_get_first_child_with_tag (e : Element) (tag : Tag) : Option Element :=
  (Graph.element_get_children_with_tag e tag).head?

/-! ## Node-family constructors (`from_element` classmethods) -/

/-- `Node.__init__`'s name default: `name if name else '<no_name>'`
(Python truthiness: `None` and `""` both fall back). -/
def name_if (name : Option String) : String :=
  match name with
  | some s => if s == "" then "<no_name>" else s
  | none => "<no_name>"

/-- `Node.from_element`: requires `id` (`KeyError` otherwise), `name`
optional via `attrib.get`. -/
def Node.from_element (e : Element) : Except PyError Item :=
  match e.attrib_item "id" with
  | .error err => .error err
  | .ok i => .ok (.node i e.tag (name_if (e.attrib_get "name")) true none [] .plain)

/-- `Gateway.from_element`: `name` optional via `attrib.get`. -/
def Gateway.from_element (e : Element) : Except PyError Item :=
  let name := e.attrib_get "name"
  match e.attrib_item "id" with
  | .error err => .error err
  | .ok i => .ok (.node i e.tag (name_if name) true none [] .gateway)

/-- `BoundaryEvent.from_element`: requires `id`, `name`, `attachedToRef`
(in that evaluation order); `show_id=False`. -/
def BoundaryEvent.from_element (e : Element) : Except PyError Item :=
  match e.attrib_item "id" with
  | .error err => .error err
  | .ok i =>
    match e.attrib_item "name" with
    | .error err => .error err
    | .ok nm =>
      match e.attrib_item "attachedToRef" with
      | .error err => .error err
      | .ok att => .ok (.node i e.tag (name_if (some nm)) false none [] (.boundary att))

/-- `ServiceTask.from_element`: vendor `class` attribute optional,
`id`/`name` required; colour `#d1f4ff`, extras `{'class': java_class}`. -/
def ServiceTask.from_element (e : Element) : Except PyError Item :=
  let java_class := e.attrib_get "\x7bhttp://activiti.org/bpmn\x7dclass"
  match e.attrib_item "id" with
  | .error err => .error err
  | .ok i =>
    match e.attrib_item "name" with
    | .error err => .error err
    | .ok nm =>
      .ok (.node i e.tag (name_if (some nm)) true (some "#d1f4ff") [("class", java_class)] .service)

/-- `TaskListener.from_element`: `class`/`expression` optional, `event`
required. -/
def TaskListener.from_element (e : Element) : Except PyError TaskListener :=
  let class_name := e.attrib_get "class"
  let expression := e.attrib_get "expression"
  match e.attrib_item "event" with
  | .error err => .error err
  | .ok ev => .ok ⟨ev, class_name, expression⟩

/-- `UserTask.from_element`: collects all descendant `taskListener`
elements first, then requires `id` and `name`; colour `#e8d1ff`. -/
def UserTask.from_element (fuel : Nat) (e : Element) : Except PyError Item :=
  match (Element.findall_fuel "\x7bhttp://activiti.org/bpmn\x7dtaskListener" fuel e).mapM
      TaskListener.from_element with
  | .error err => .error err
  | .ok task_listeners =>
    match e.attrib_item "id" with
    | .error err => .error err
    | .ok i =>
      match e.attrib_item "name" with
      | .error err => .error err
      | .ok nm =>
        .ok (.node i e.tag (name_if (some nm)) true (some "#e8d1ff") [] (.user task_listeners))

/-- `CallActivity.from_element`: requires `id`, `name`, `calledElement`;
colour `#ffffd1`, extras `{'calling': called_element}`. -/
def CallActivity.from_element (e : Element) : Except PyError Item :=
  match e.attrib_item "id" with
  | .error err => .error err
  | .ok i =>
    match e.attrib_item "name" with
    | .error err => .error err
    | .ok nm =>
      match e.attrib_item "calledElement" with
      | .error err => .error err
      | .ok ce =>
        .ok (.node i e.tag (name_if (some nm)) true (some "#ffffd1") [("calling", some ce)] .call)

/-- The `messageRef` part of `IntermediateCatchEvent.__get_extras`:
first descendant `messageEventDefinition`, whose `messageRef` attribute is
a mandatory subscript. -/
def IntermediateCatchEvent.msg_extra (fuel : Nat) (e : Element) :
    Except PyError (List (String × Option String)) :=
  match Element.findall_fuel (Tag.str (Tag.bpmn "messageEventDefinition")) fuel e with
  | [] => .ok []
  | m :: _ =>
    match m.attrib_item "messageRef" with
    | .error err => .error err
    | .ok v => .ok [("messageRef", some v)]

/-- The `duration` part of `IntermediateCatchEvent.__get_extras`: the text
of the first descendant `timeDuration` (possibly `None`). -/
def IntermediateCatchEvent.dur_extra (fuel : Nat) (e : Element) :
    List (String × Option String) :=
  match Element.findall_fuel (Tag.str (Tag.bpmn "timeDuration")) fuel e with
  | [] => []
  | t :: _ => [("duration", t.text)]

/-- `IntermediateCatchEvent.__get_extras`. -/
def IntermediateCatchEvent.get_extras (fuel : Nat) (e : Element) :
    Except PyError (List (String × Option String)) :=
  match IntermediateCatchEvent.msg_extra fuel e with
  | .error err => .error err
  | .ok m => .ok (m ++ IntermediateCatchEvent.dur_extra fuel e)

/-- `IntermediateCatchEvent.from_element`: extras first, then requires
`id` and `name`; colour `#ffd1f4`. -/
def IntermediateCatchEvent.from_element (fuel : Nat) (e : Element) : Except PyError Item :=
  match IntermediateCatchEvent.get_extras fuel e with
  | .error err => .error err
  | .ok extras =>
    match e.attrib_item "id" with
    | .error err => .error err
    | .ok i =>
      match e.attrib_item "name" with
      | .error err => .error err
      | .ok nm =>
        .ok (.node i e.tag (name_if (some nm)) true (some "#ffd1f4") extras .catchEvent)

/-! ## Edge constructor -/

/-- `Edge.__get_condition`: first `conditionExpression` child; its `text`
is passed to `__tidy_condition` (an `AttributeError` if the text is
`None`). -/
def Edge.get_condition (e : Element) : Except PyError (Option String) :=
  match Graph.element_get_first_child_with_tag e (Tag.bpmn "conditionExpression") with
  | none => .ok none
  | some c =>
    match c.text with
    | none => .error .attributeError
    | some t => .ok (some (Edge.tidy_condition t))

/-- `Edge.from_element`: condition first, then requires `id`, `sourceRef`,
`targetRef`; `name` optional. -/
def Edge.from_element (e : Element) : Except PyError Item :=
  match Edge.get_condition e with
  | .error err => .error err
  | .ok condition_text =>
    match e.attrib_item "id" with
    | .error err => .error err
    | .ok i =>
      match e.attrib_item "sourceRef" with
      | .error err => .error err
      | .ok s =>
        match e.attrib_item "targetRef" with
        | .error err => .error err
        | .ok t => .ok (.edge i s t (e.attrib_get "name") condition_text)

/-! ## Handler functions (module level in the source) -/

def handle_boundaryEvent (e : Element) : Except PyError Item :=
  if e.tag == Tag.str (Tag.bpmn "boundaryEvent") then BoundaryEvent.from_element e
  else .error .unsuitableHandler

def handle_serviceTask (e : Element) : Except PyError Item :=
  if e.tag == Tag.str (Tag.bpmn "serviceTask") then ServiceTask.from_element e
  else .error .unsuitableHandler

def handle_userTask (fuel : Nat) (e : Element) : Except PyError Item :=
  if e.tag == Tag.str (Tag.bpmn "userTask") then UserTask.from_element fuel e
  else .error .unsuitableHandler

def handle_callActivity (e : Element) : Except PyError Item :=
  if e.tag == Tag.str (Tag.bpmn "callActivity") then CallActivity.from_element e
  else .error .unsuitableHandler

def handle_intermediateCatchEvent (fuel : Nat) (e : Element) : Except PyError Item :=
  if e.tag == Tag.str (Tag.bpmn "intermediateCatchEvent") then
    IntermediateCatchEvent.from_element fuel e
  else .error .unsuitableHandler

def handle_node (e : Element) : Except PyError Item :=
  if Graph.element_has_attribs e ["id"] then Node.from_element e
  else .error .unsuitableHandler

def handle_edge (e : Element) : Except PyError Item :=
  if Graph.element_has_attribs e ["id", "sourceRef", "targetRef"] then Edge.from_element e
  else .error .unsuitableHandler

def handle_gateway (e : Element) : Except PyError Item :=
  Gateway.from_element e

def handle_coloured_node (colour : String) (e : Element) : Except PyError Item :=
  match handle_node e with
  | .error err => .error err
  | .ok node => .ok (node.set_colour colour)

/-! ## The Graph container (`self.__graph` is an insertion-ordered dict,
modelled as the ordered list of its values; ids are the dict keys). -/

/-- `Graph.__add_item` on a non-`None` item: dict insertion — an existing
key keeps its position and gets the new value, a new key is appended. -/
def Graph.add_item (g : List Item) (item : Item) : List Item :=
  if g.any (fun x => x.id == item.id) then
    g.map (fun x => if x.id == item.id then item else x)
  else g ++ [item]

/-- `Graph.get_child_nodes`: items that are `Node` instances. -/
def Graph.get_child_nodes (g : List Item) : List Item :=
  g.filter Item.isNode

/-- `Graph.get_child_nodes_with_tag` (the `tag` argument is the raw string
the callers pass, e.g. `str(Tag('startEvent'))`). -/
def Graph.get_child_nodes_with_tag (g : List Item) (tag : String) : List Item :=
  (Graph.get_child_nodes g).filter (fun node => node.node_tag == some tag)

/-- `Graph.get_item` / `self.__graph.get(item_id)`. -/
def Graph.get (g : List Item) (item_id : String) : Option Item :=
  g.find? (fun it => it.id == item_id)

/-- `Graph.remove_adjacent`: a fresh Graph keeping, in order, exactly the
items whose `adjacent` set does not intersect `id_list` (re-inserted via
`__add_item`); the receiver is not mutated. -/
def Graph.remove_adjacent (g : List Item) (id_list : List String) : List Item :=
  (g.filter (fun item => !(id_list.any (fun i => (item.adjacent).contains i)))).foldl
    Graph.add_item []

/-- `Graph.get_edges`: all edges, optionally filtered by endpoint — but
only when the given id is truthy (`if source_id:` / `if target_id:`), so a
`None` or `""` filter value is skipped. -/
def Graph.get_edges (g : List Item) (source_id target_id : Option String) : List Item :=
  let edges := g.filter Item.isEdge
  let edges :=
    if strTruthy source_id then edges.filter (fun edge => edge.source_node == source_id)
    else edges
  let edges :=
    if strTruthy target_id then edges.filter (fun edge => edge.target_node == target_id)
    else edges
  edges

/-- `Graph.get_downstream_nodes`: target ids of the edges leaving
`node_id`. -/
def Graph.get_downstream_nodes (g : List Item) (node_id : String) : List String :=
  (Graph.get_edges g (some node_id) none).filterMap Item.target_node

/-! ## Subprocess construction -/

/-- `Subprocess.__init__`: locates `[0]` of the startEvent children and
`[0]` of the endEvent children of the contained Graph (an `IndexError`
when either list is empty), and stores their ids. -/
def Subprocess.init (id name : String) (children : List Item) : Except PyError Item :=
  match (Graph.get_child_nodes_with_tag children (Tag.str (Tag.bpmn "startEvent"))).head? with
  | none => .error .indexError
  | some start_node =>
    match (Graph.get_child_nodes_with_tag children (Tag.str (Tag.bpmn "endEvent"))).head? with
    | none => .error .indexError
    | some end_node => .ok (.subprocess id name children start_node.id end_node.id)

/-- The attribute lookups of `Subprocess.from_element` once the children
Graph has been built: `element.attrib['id']`, `element.attrib['name']`. -/
def Subprocess.of_children (e : Element) (ch : List Item) : Except PyError Item :=
  match e.attrib_item "id" with
  | .error err => .error err
  | .ok i =>
    match e.attrib_item "name" with
    | .error err => .error err
    | .ok nm => Subprocess.init i nm ch

/-! ## Element dispatch (`Graph.__process_element`) -/

/-- Whether `Graph.__get_handler_fn` finds a handler for this local tag
name: a module-level `handle_<tag>` function (`globals()` lookup) or a
`TAG_HANDLERS` entry. -/
def Graph.has_dedicated_handler (t : String) : Bool :=
  t == "subProcess" || t == "boundaryEvent" || t == "serviceTask" || t == "userTask" ||
  t == "callActivity" || t == "intermediateCatchEvent" || t == "coloured_node" ||
  t == "node" || t == "edge" || t == "gateway" ||
  t == "exclusiveGateway" || t == "parallelGateway" || t == "startEvent" || t == "endEvent"

/-- `Graph.__process_element` with explicit recursion fuel: parse the tag
(an unparsable tag is the caller's `AttributeError`), dispatch to the
handler `__get_handler_fn` finds — whose exceptions, including
`UnsuitableHandlerException`, propagate — and otherwise try the
`OTHER_HANDLERS` list `[handle_edge, handle_node]` in order, catching only
`UnsuitableHandlerException` and returning `None` when every generic
handler was unsuitable.  The `subProcess` branch inlines
`handle_subProcess`/`Subprocess.from_element`/`Graph.__init__` (the
recursive build of the children Graph; see `Graph.build` and
`handle_subProcess` below for the same code as named definitions).  The
local tag `coloured_node` would reach `handle_coloured_node` with a single
argument — a `TypeError`. -/
def Graph.process_element : Nat → Element → Except PyError (Option Item)
  | 0, _ => .error .recursionError
  | fuel + 1, e =>
    match Tag.from_string e.tag with
    | none => .error .attributeError
    | some tg =>
      if tg.tag = "subProcess" then
        Except.map some
          (if Graph.element_is_subprocess e then
            match e.children.foldlM (fun acc c =>
                (Graph.process_element fuel c).map (fun item? =>
                  match item? with
                  | some it => Graph.add_item acc it
                  | none => acc)) [] with
            | .error err => .error err
            | .ok ch => Subprocess.of_children e ch
          else .error .unsuitableHandler)
      else if tg.tag = "boundaryEvent" then Except.map some (handle_boundaryEvent e)
      else if tg.tag = "serviceTask" then Except.map some (handle_serviceTask e)
      else if tg.tag = "userTask" then Except.map some (handle_userTask fuel e)
      else if tg.tag = "callActivity" then Except.map some (handle_callActivity e)
      else if tg.tag = "intermediateCatchEvent" then
        Except.map some (handle_intermediateCatchEvent fuel e)
      else if tg.tag = "coloured_node" then .error .typeError
      else if tg.tag = "node" then Except.map some (handle_node e)
      else if tg.tag = "edge" then Except.map some (handle_edge e)
      else if tg.tag = "gateway" then Except.map some (handle_gateway e)
      else if tg.tag = "exclusiveGateway" then Except.map some (handle_gateway e)
      else if tg.tag = "parallelGateway" then Except.map some (handle_gateway e)
      else if tg.tag = "startEvent" then Except.map some (handle_coloured_node "#d1ffd1" e)
      else if tg.tag = "endEvent" then Except.map some (handle_coloured_node "#ffd1d1" e)
      else
        match handle_edge e with
        | .ok it => .ok (some it)
        | .error .unsuitableHandler =>
          match handle_node e with
          | .ok it => .ok (some it)
          | .error .unsuitableHandler => .ok none
          | .error err => .error err
        | .error err => .error err

/-- `Graph.__init__(root)`: process each child element in order, adding
each non-`None` result (`add_element` / `__add_item`). -/
def Graph.build (fuel : Nat) (es : List Element) : Except PyError (List Item) :=
  es.foldlM (fun acc c =>
    (Graph.process_element fuel c).map (fun item? =>
      match item? with
      | some it => Graph.add_item acc it
      | none => acc)) []

/-- `Subprocess.from_element`: build the children Graph, then read the
attributes and run the constructor. -/
def Subprocess.from_element (fuel : Nat) (e : Element) : Except PyError Item :=
  match Graph.build fuel e.children with
  | .error err => .error err
  | .ok ch => Subprocess.of_children e ch

/-- `handle_subProcess`. -/
def handle_subProcess (fuel : Nat) (e : Element) : Except PyError Item :=
  if Graph.element_is_subprocess e then Subprocess.from_element fuel e
  else .error .unsuitableHandler

/-! ## Rendering -/

/-- `Node.get_label` (the base-class label; `params` is accepted and
ignored, as in the source). -/
def Node.get_label (name id : String) (show_id : Bool)
    (extras : List (String × Option String)) (_params : Option Params)
    (include_extras : Bool) : String :=
  let extras_label :=
    if !extras.isEmpty && include_extras then
      "\n" ++ String.intercalate "\n" (extras.map (fun kv => kv.1 ++ ": " ++ opt_str kv.2))
    else ""
  if show_id then name ++ "\\nid: " ++ id ++ extras_label else name

/-- `s.split(sep)[-1]`: the substring after the last occurrence of `sep`
(the whole string when `sep` does not occur). -/
def last_segment (sep : Char) (s : String) : String :=
  String.mk ((s.data.reverse.takeWhile (fun x => !(x == sep))).reverse)

/-- `UserTask.__get_class_name`: the short (last dot-segment) name unless
`show_package_names` is configured — the short-name branch calls
`.split('.')` on the value, an `AttributeError` when it is `None`; the
pass-through branch just stringifies it. -/
def UserTask.get_class_name (class_name : Option String) (params : Option Params) :
    Except PyError String :=
  match params with
  | none =>
    match class_name with
    | none => .error .attributeError
    | some c => .ok (last_segment '.' c)
  | some p =>
    if !p.show_package_names then
      match class_name with
      | none => .error .attributeError
      | some c => .ok (last_segment '.' c)
    else .ok (opt_str class_name)

/-- `UserTask.get_label`: the base label (note: `super().get_label()` is
called with no arguments), then one `event: class` line per task listener
when `not params or params.get('show_task_listeners')`. -/
def UserTask.get_label (name id : String) (task_listeners : List TaskListener)
    (params : Option Params) : Except PyError String :=
  let label := Node.get_label name id true [] none true
  let show_listeners :=
    match params with
    | none => true
    | some p => p.show_task_listeners
  if show_listeners then
    if !task_listeners.isEmpty then
      match task_listeners.mapM (fun listener =>
          (UserTask.get_class_name listener.class_name params).map
            (fun cn => listener.event ++ ": " ++ cn)) with
      | .error err => .error err
      | .ok lines => .ok (label ++ ("\n" ++ String.intercalate "\n" lines))
    else .ok label
  else .ok label

/-- `Edge.to_dot`: resolve each nominal endpoint through the graph
mapping when one is supplied (`graph.get(x).end_node_id if graph.get(x)
else x` for the source, `start_node_id` for the target), then assemble the
optional label from the truthy parts. -/
def Edge.to_dot (graph : Option (List Item)) (params : Option Params)
    (edge_id source_node target_node : String) (name condition : Option String) :
    Except PyError String :=
  let show_flows :=
    match params with
    | some p => p.show_flows
    | none => false
  let src : Except PyError String :=
    match graph with
    | some g =>
      match Graph.get g source_node with
      | some it => it.end_node_id
      | none => .ok source_node
    | none => .ok source_node
  let tgt : Except PyError String :=
    match graph with
    | some g =>
      match Graph.get g target_node with
      | some it => it.start_node_id
      | none => .ok target_node
    | none => .ok target_node
  match src with
  | .error err => .error err
  | .ok s =>
    match tgt with
    | .error err => .error err
    | .ok t =>
      let label_components :=
        (if strTruthy name then [opt_str name] else []) ++
        (if strTruthy condition then [opt_str condition] else []) ++
        (if show_flows then [edge_id] else [])
      let label_text :=
        if !label_components.isEmpty then some (String.intercalate "\\n" label_components)
        else none
      let label :=
        if strTruthy label_text then " [label=\"" ++ opt_str label_text ++ "\"]" else ""
      .ok (s ++ " -> " ++ t ++ label)

/-! ## Error-handling removal (`bpm_diagram.remove_error_handling`) -/

/-- `remove_error_handling`: remove everything adjacent to the boundary
events, the subprocesses named `exception_subprocess_name`, and their
one-hop downstream node ids. -/
def remove_error_handling (graph : List Item) (exception_subprocess_name : String) :
    List Item :=
  let boundary_events :=
    Graph.get_child_nodes_with_tag graph (Tag.str (Tag.bpmn "boundaryEvent"))
  let event_ids := boundary_events.map Item.id
  let exception_subprocesses := graph.filter
    (fun sp => sp.isSubprocess && sp.sp_name == some exception_subprocess_name)
  let sp_ids := exception_subprocesses.map Item.id
  let downstream := sp_ids.map (fun sp_id => Graph.get_downstream_nodes graph sp_id)
  Graph.remove_adjacent graph ((event_ids ++ sp_ids) ++ downstream.flatten)

/-- Modelled from the claim's words, for comparison with the code: the
removal set {ids of all boundary-event items} ∪ {ids of subprocesses whose
name equals the configured name} ∪ {target ids of edges whose source is
such a subprocess id}. -/
def spec_removal_set (graph : List Item) (exception_subprocess_name : String) :
    List String :=
  let event_ids :=
    (Graph.get_child_nodes_with_tag graph (Tag.str (Tag.bpmn "boundaryEvent"))).map Item.id
  let sp_ids := (graph.filter
    (fun sp => sp.isSubprocess && sp.sp_name == some exception_subprocess_name)).map Item.id
  let downstream := sp_ids.map (fun sp_id =>
    ((graph.filter Item.isEdge).filter
      (fun edge => edge.source_node == some sp_id)).filterMap Item.target_node)
  (event_ids ++ sp_ids) ++ downstream.flatten

/-! ## Concrete instances used by witnesses and counterexamples -/

/-- Shorthand for the raw BPMN tag string `str(Tag(t))`. -/
def bpmnTag (t : String) : String := Tag.str (Tag.bpmn t)

/-- A plain node as the dispatcher builds one. -/
def nd (i t : String) : Item := .node i t "x" true none [] .plain

/-- A `serviceTask` element in a non-BPMN namespace: `__get_handler_fn`
still selects `handle_serviceTask` (dispatch is on the local name only),
whose tag check then fails. -/
def badServiceTask : Element :=
  .mk "\x7bhttp://example.com\x7dserviceTask" [("id", "t1"), ("name", "T")] [] none

/-- An element with no dedicated handler and full edge attributes. -/
def fooEdgeEl : Element :=
  .mk "\x7bhttp://x\x7dfoo" [("id", "i"), ("sourceRef", "s"), ("targetRef", "t")] [] none

/-- Children of a well-formed subprocess: one startEvent, one endEvent. -/
def spCh : List Item := [nd "s" (bpmnTag "startEvent"), nd "e" (bpmnTag "endEvent")]

/-- Children with TWO startEvents (and one endEvent). -/
def chC3 : List Item :=
  [nd "s1" (bpmnTag "startEvent"), nd "s2" (bpmnTag "startEvent"), nd "e1" (bpmnTag "endEvent")]

/-- A `serviceTask` element with an `id` but no `name` attribute. -/
def sEl : Element := .mk (bpmnTag "serviceTask") [("id", "t1")] [] none

/-- A plain element with an `id` but no `name` attribute. -/
def nEl : Element := .mk (bpmnTag "task") [("id", "n1")] [] none

/-- A `taskListener` with an `event` and an `expression` but no `class`. -/
def lEl : Element :=
  .mk "\x7bhttp://activiti.org/bpmn\x7dtaskListener"
    [("event", "create"), ("expression", "e")] [] none

/-- A `userTask` whose only task listener is `lEl`. -/
def uEl : Element := .mk (bpmnTag "userTask") [("id", "u1"), ("name", "U")] [lEl] none

/-- A graph whose exception subprocess (named `X`) has the EMPTY id: built
from a `subProcess` element with `id=""` (handle_subProcess never checks
attribute values, and `attrib['id']` returns `""` as-is). -/
def gEx : List Item :=
  [ .subprocess "" "X" spCh "s" "e"
  , .edge "e1" "a" "b" none none
  , nd "a" (bpmnTag "task")
  , nd "b" (bpmnTag "task") ]

/-- A well-formed error-handling scenario: boundary event `B1` on activity
`A`, exception subprocess `sp` named `X`, one hop downstream `n1`, two hops
downstream `n2`. -/
def gEh : List Item :=
  [ .node "B1" (bpmnTag "boundaryEvent") "b" false none [] (.boundary "A")
  , .subprocess "sp" "X" spCh "s" "e"
  , .edge "f1" "sp" "n1" none none
  , nd "n1" (bpmnTag "task")
  , nd "n2" (bpmnTag "task")
  , .edge "f2" "n1" "n2" none none
  , nd "A" (bpmnTag "task") ]

/-- A graph holding a plain node and a subprocess, for edge rendering. -/
def gW : List Item :=
  [ nd "n1" (bpmnTag "task")
  , .subprocess "sp" "S" spCh "s" "e" ]

/-! ## Helper lemmas -/

theorem Graph.add_item_of_fresh (g : List Item) (it : Item)
    (h : ∀ x ∈ g, x.id ≠ it.id) : Graph.add_item g it = g ++ [it] := by
  unfold Graph.add_item
  rw [if_neg]
  intro hany
  simp at hany
  obtain ⟨x, hx, he⟩ := hany
  exact h x hx he

theorem Graph.foldl_add_item (l : List Item) (acc : List Item)
    (h : ((acc ++ l).map Item.id).Nodup) : l.foldl Graph.add_item acc = acc ++ l := by
  induction l generalizing acc with
  | nil => simp
  | cons x rest ih =>
    have hmapped : (acc.map Item.id ++ (x.id :: rest.map Item.id)).Nodup := by
      simpa using h
    rw [List.nodup_append] at hmapped
    have hx : ∀ y ∈ acc, y.id ≠ x.id := by
      intro y hy he
      exact hmapped.2.2 (List.mem_map_of_mem Item.id hy) (by simp [he])
    rw [List.foldl_cons, Graph.add_item_of_fresh acc x hx,
      ih (acc ++ [x]) (by simpa using h)]
    simp

theorem Graph.remove_adjacent_eq_filter (g : List Item) (S : List String)
    (h : (g.map Item.id).Nodup) :
    Graph.remove_adjacent g S
      = g.filter (fun item => !(S.any (fun i => (item.adjacent).contains i))) := by
  unfold Graph.remove_adjacent
  have hsub : ((g.filter (fun item =>
      !(S.any (fun i => (item.adjacent).contains i)))).map Item.id).Nodup :=
    ((List.filter_sublist g).map Item.id).nodup h
  simpa using Graph.foldl_add_item _ [] (by simpa using hsub)

theorem Element.attrib_item_no_unsuitable (e : Element) (k : String) :
    e.attrib_item k ≠ .error .unsuitableHandler := by
  unfold Element.attrib_item
  split <;> simp

theorem Edge.get_condition_no_unsuitable (e : Element) :
    Edge.get_condition e ≠ .error .unsuitableHandler := by
  unfold Edge.get_condition
  split
  · simp
  · split <;> simp

theorem edge_from_element_never_unsuitable (e : Element) :
    Edge.from_element e ≠ .error .unsuitableHandler := by
  unfold Edge.from_element
  split
  · rename_i err heq
    intro hcontra
    simp at hcontra
    subst hcontra
    exact Edge.get_condition_no_unsuitable e heq
  · split
    · rename_i err heq
      intro hcontra
      simp at hcontra
      subst hcontra
      exact Element.attrib_item_no_unsuitable e "id" heq
    · split
      · rename_i err heq
        intro hcontra
        simp at hcontra
        subst hcontra
        exact Element.attrib_item_no_unsuitable e "sourceRef" heq
      · split
        · rename_i err heq
          intro hcontra
          simp at hcontra
          subst hcontra
          exact Element.attrib_item_no_unsuitable e "targetRef" heq
        · simp

theorem node_from_element_never_unsuitable (e : Element) :
    Node.from_element e ≠ .error .unsuitableHandler := by
  unfold Node.from_element
  split
  · rename_i err heq
    intro hcontra
    simp at hcontra
    subst hcontra
    exact Element.attrib_item_no_unsuitable e "id" heq
  · simp

/-- With a successor fuel, an element whose parsed local tag has no
dedicated handler takes exactly the `OTHER_HANDLERS` path. -/
theorem Graph.process_element_generic (fuel : Nat) (e : Element) (tg : Tag)
    (h1 : Tag.from_string e.tag = some tg)
    (h2 : Graph.has_dedicated_handler tg.tag = false) :
    Graph.process_element (fuel + 1) e =
      (if Graph.element_has_attribs e ["id", "sourceRef", "targetRef"] then
        Except.map some (Edge.from_element e)
      else if Graph.element_has_attribs e ["id"] then
        Except.map some (Node.from_element e)
      else .ok none) := by
  simp only [Graph.has_dedicated_handler, Bool.or_eq_false_iff, beq_eq_false_iff_ne] at h2
  obtain ⟨⟨⟨⟨⟨⟨⟨⟨⟨⟨⟨⟨⟨n1, n2⟩, n3⟩, n4⟩, n5⟩, n6⟩, n7⟩, n8⟩, n9⟩, n10⟩, n11⟩, n12⟩, n13⟩, n14⟩ := h2
  simp only [Graph.process_element, h1]
  rw [if_neg n1, if_neg n2, if_neg n3, if_neg n4, if_neg n5, if_neg n6, if_neg n7,
    if_neg n8, if_neg n9, if_neg n10, if_neg n11, if_neg n12, if_neg n13, if_neg n14]
  by_cases hA : Graph.element_has_attribs e ["id", "sourceRef", "targetRef"]
  · rw [if_pos hA]
    simp only [handle_edge, if_pos hA]
    rcases hE : Edge.from_element e with err | it
    · rcases err with _ | _ | _ | _ | _ | _
      · exact absurd hE (edge_from_element_never_unsuitable e)
      all_goals rfl
    · rfl
  · rw [if_neg hA]
    simp only [handle_edge, if_neg hA]
    by_cases hB : Graph.element_has_attribs e ["id"]
    · rw [if_pos hB]
      simp only [handle_node, if_pos hB]
      rcases hN : Node.from_element e with err | it
      · rcases err with _ | _ | _ | _ | _ | _
        · exact absurd hN (node_from_element_never_unsuitable e)
        all_goals rfl
      · rfl
    · rw [if_neg hB]
      simp only [handle_node, if_neg hB]

/-- `findall` of an element with no children is empty, whatever the fuel. -/
theorem Element.findall_fuel_nil (tag : String) (fuel : Nat) (e : Element)
    (h : e.children = []) : Element.findall_fuel tag fuel e = [] := by
  cases fuel with
  | zero => rfl
  | succ n => simp [Element.findall_fuel, h]

/-- A successful `graph.get(k)` returns an item whose id is `k`. -/
theorem Graph.get_id (g : List Item) (k : String) (it : Item)
    (h : Graph.get g k = some it) : it.id = k := by
  have := List.find?_some h
  simpa using this

theorem breakAtBrace_eq_some {r u v : List Char} (h : breakAtBrace r = some (u, v)) :
    r = u ++ '\x7d' :: v ∧ '\x7d' ∉ u := by
  induction r generalizing u v with
  | nil => simp [breakAtBrace] at h
  | cons c rest ih =>
    by_cases hc : c = '\x7d'
    · subst hc
      simp [breakAtBrace] at h
      obtain ⟨hu, hv⟩ := h
      subst hu; subst hv
      simp
    · simp [breakAtBrace, hc] at h
      rcases hb : breakAtBrace rest with _ | ⟨b, a⟩ <;> rw [hb] at h
      · simp at h
      · simp at h
        obtain ⟨hu, hv⟩ := h
        subst hv; subst hu
        obtain ⟨hr, hnb⟩ := ih hb
        refine ⟨by rw [List.cons_append, hr], ?_⟩
        intro hmem
        rcases List.mem_cons.mp hmem with h1 | h2
        · exact hc h1.symm
        · exact hnb h2

theorem breakAtBrace_append {u : List Char} (v : List Char) (h : '\x7d' ∉ u) :
    breakAtBrace (u ++ '\x7d' :: v) = some (u, v) := by
  induction u with
  | nil => simp [breakAtBrace]
  | cons c rest ih =>
    rw [List.mem_cons] at h
    push_neg at h
    obtain ⟨h1, h2⟩ := h
    rw [List.cons_append]
    simp only [breakAtBrace]
    rw [if_neg (fun hc => h1 hc.symm), ih h2]

theorem trimNl_no_nl {cs : List Char} (h : '\n' ∉ cs) : trimNl cs = cs := by
  unfold trimNl
  rcases hl : cs.getLast? with _ | c
  · rfl
  · have hc : c ∈ cs := List.mem_of_mem_getLast? hl
    show (if c = '\n' then cs.dropLast else cs) = cs
    rw [if_neg]
    intro he
    exact h (he ▸ hc)

theorem Tag.str_data (a b : List Char) :
    (Tag.str ⟨String.mk b, String.mk a⟩).data = '\x7b' :: (a ++ '\x7d' :: b) := by
  simp [Tag.str, String.data_append]

/-- Parsing a reconstructed `{ns}local` string recovers the components, for
any components free of `'\n'` and with no `'\x7d'` in the local part. -/
theorem Tag.from_string_build (ns loc : List Char)
    (h1 : '\n' ∉ ns) (h2 : '\n' ∉ loc) (h3 : '\x7d' ∉ loc) :
    Tag.from_string (Tag.str ⟨String.mk loc, String.mk ns⟩)
      = some ⟨String.mk loc, String.mk ns⟩ := by
  unfold Tag.from_string
  rw [Tag.str_data ns loc]
  rw [trimNl_no_nl]
  · show (if ('\x7b' : Char) = '\x7b' then
        (if (ns ++ '\x7d' :: loc).contains '\n' then none
         else
           match breakAtBrace (ns ++ '\x7d' :: loc).reverse with
           | none => none
           | some (revLocal, revNs) =>
               some (⟨String.mk revLocal.reverse, String.mk revNs.reverse⟩ : Tag))
      else none) = some ⟨String.mk loc, String.mk ns⟩
    rw [if_pos rfl, if_neg]
    · have heq : (ns ++ '\x7d' :: loc).reverse = loc.reverse ++ '\x7d' :: ns.reverse := by
        simp
      rw [heq, breakAtBrace_append ns.reverse (by simpa using h3)]
      simp
    · simp
      exact ⟨h1, h2⟩
  · intro hmem
    rcases List.mem_cons.mp hmem with hh | hh
    · exact absurd hh (by decide)
    · rcases List.mem_append.mp hh with hh2 | hh2
      · exact h1 hh2
      · rcases List.mem_cons.mp hh2 with hh3 | hh3
        · exact absurd hh3 (by decide)
        · exact h2 hh3

/-! ## Claim theorems -/

/-- C9: for every string `s` of the form `{ns}local` that `Tag.from_string`
accepts, parsing `s`, converting the `Tag` back to its string form with
`str`, and parsing again yields exactly the `Tag` obtained by parsing `s`
once: `parse(to_string(parse(s))) = parse(s)`. -/
theorem tag_roundtrip (s : String) (t : Tag) (h : Tag.from_string s = some t) :
    Tag.from_string (Tag.str t) = some t := by
  obtain ⟨tg, ns⟩ := t
  unfold Tag.from_string at h
  rcases htrim : trimNl s.data with _ | ⟨c, rest⟩ <;> rw [htrim] at h
  · simp at h
  · by_cases hc : c = '\x7b'
    case neg =>
      simp only [if_neg hc] at h
      simp at h
    case pos =>
      subst hc
      simp only [if_pos rfl] at h
      by_cases hnl : rest.contains '\n'
      · rw [if_pos hnl] at h; simp at h
      · rw [if_neg hnl] at h
        rcases hb : breakAtBrace rest.reverse with _ | ⟨revLocal, revNs⟩ <;> rw [hb] at h
        · simp at h
        · simp at h
          obtain ⟨htg, hns⟩ := h
          obtain ⟨hrev, hnbrace⟩ := breakAtBrace_eq_some hb
          have hnl' : '\n' ∉ rest := by simp at hnl; exact hnl
          have hnlrev : '\n' ∉ rest.reverse := by simpa using hnl'
          rw [hrev] at hnlrev
          simp at hnlrev
          obtain ⟨hnlL, hnlN⟩ := hnlrev
          subst htg; subst hns
          exact Tag.from_string_build revNs.reverse revLocal.reverse
            (by simpa using hnlN) (by simpa using hnlL) (by simpa using hnbrace)

/-- C9 witness: the round trip at the concrete tag string `{ns}loc`. -/
theorem tag_roundtrip_witness :
    Tag.from_string (Tag.str ⟨"loc", "ns"⟩) = some ⟨"loc", "ns"⟩ :=
  tag_roundtrip "\x7bns\x7dloc" ⟨"loc", "ns"⟩ (by rfl)

/-- C6: `__tidy_condition` strips a leading `${` (first conjunct) and a
trailing `}` (second conjunct) when present, escapes every double quote
with a backslash (third conjunct: the quote-replacement pass rewrites each
character separately, replacing exactly the quotes by `\"`), and on the
concrete input `${a=="x"&&b}` produces text with `==` and `&&` each
followed by a `\n` line break, the internal quotes escaped, and no
surrounding delimiter (fourth conjunct). -/
theorem tidy_condition_spec :
    (∀ l : List Char, strip_dollar ('$' :: '\x7b' :: l) = l)
    ∧ (∀ l : List Char, strip_brace (l ++ ['\x7d']) = l)
    ∧ (∀ l : List Char,
        replace1 '"' ['\\', '"'] l
          = l.flatMap (fun c => if c = '"' then ['\\', '"'] else [c]))
    ∧ Edge.tidy_condition "$\x7ba==\"x\"&&b\x7d" = "a==\\n\\\"x\\\"&&\\nb" := by
  refine ⟨fun l => ?_, fun l => ?_, fun l => ?_, by rfl⟩
  · simp [strip_dollar]
  · simp [strip_brace]
  · induction l with
    | nil => rfl
    | cons c rest ih => simp [replace1, ih]

/-- C2: `remove_adjacent(S)` builds a fresh graph that is exactly the
filter of the original by non-intersection of `adjacent` with `S` (first
conjunct — membership and original relative order preserved), is the
identity for `S = ∅` (second conjunct), never keeps an item whose
`adjacent` intersects `S` (third conjunct) and keeps every item whose
`adjacent` does not (fourth conjunct).  The id-nodup hypothesis holds for
every real `Graph`, whose backing store is a dict keyed by item id; the
receiver is a Lean value, so non-mutation of the input is inherent. -/
theorem remove_adjacent_spec (g : List Item) (S : List String)
    (h : (g.map Item.id).Nodup) :
    Graph.remove_adjacent g S
        = g.filter (fun item => !(S.any (fun i => (item.adjacent).contains i)))
      ∧ Graph.remove_adjacent g [] = g
      ∧ (∀ it ∈ Graph.remove_adjacent g S, ∀ x ∈ S, x ∉ it.adjacent)
      ∧ (∀ it ∈ g, (∀ x ∈ S, x ∉ it.adjacent) → it ∈ Graph.remove_adjacent g S) := by
  have h1 := Graph.remove_adjacent_eq_filter g S h
  have h0 := Graph.remove_adjacent_eq_filter g [] h
  refine ⟨h1, by simpa using h0, ?_, ?_⟩
  · intro it hit x hx
    rw [h1] at hit
    have hp := List.of_mem_filter hit
    simp at hp
    exact hp x hx
  · intro it hig hdisj
    rw [h1]
    apply List.mem_filter_of_mem hig
    simp
    exact hdisj

/-- C2 witness: a two-item graph with distinct ids, filtered on `{"b"}`. -/
theorem remove_adjacent_spec_witness :
    (([nd "a" "t", Item.edge "e" "a" "b" none none].map Item.id).Nodup)
      ∧ Graph.remove_adjacent [nd "a" "t", Item.edge "e" "a" "b" none none] ["b"]
          = [nd "a" "t", Item.edge "e" "a" "b" none none].filter
              (fun item => !(["b"].any (fun i => (item.adjacent).contains i))) :=
  ⟨by decide, (remove_adjacent_spec [nd "a" "t", Item.edge "e" "a" "b" none none] ["b"]
    (by decide)).1⟩

/-- C3 counterexample: a children graph with TWO startEvent children (ids
`s1`, `s2`) and one endEvent.  The claim says construction must fail; the
constructor instead succeeds and silently stores the FIRST startEvent
(`s1`) as the subprocess's start node. -/
theorem subprocess_duplicate_start_counterexample :
    Subprocess.init "sp" "nm" chC3 = .ok (.subprocess "sp" "nm" chC3 "s1" "e1") := by
  rfl

/-- C3 amended: `Subprocess.__init__` succeeds exactly when at least one
startEvent child and at least one endEvent child exist (first conjunct; it
raises `IndexError` otherwise), and on success it silently picks the FIRST
startEvent and FIRST endEvent among the direct children (second conjunct)
— it does not require uniqueness. -/
theorem subprocess_init_amended (id name : String) (children : List Item) :
    ((∃ it, Subprocess.init id name children = .ok it) ↔
      (Graph.get_child_nodes_with_tag children (Tag.str (Tag.bpmn "startEvent")) ≠ []
        ∧ Graph.get_child_nodes_with_tag children (Tag.str (Tag.bpmn "endEvent")) ≠ []))
    ∧ (∀ sn en : Item,
        (Graph.get_child_nodes_with_tag children
          (Tag.str (Tag.bpmn "startEvent"))).head? = some sn →
        (Graph.get_child_nodes_with_tag children
          (Tag.str (Tag.bpmn "endEvent"))).head? = some en →
        Subprocess.init id name children
          = .ok (.subprocess id name children sn.id en.id)) := by
  constructor
  · unfold Subprocess.init
    rcases hs : (Graph.get_child_nodes_with_tag children
        (Tag.str (Tag.bpmn "startEvent"))).head? with _ | sn
    · simp [List.head?_eq_none_iff] at hs
      simp [hs]
    · rcases he : (Graph.get_child_nodes_with_tag children
          (Tag.str (Tag.bpmn "endEvent"))).head? with _ | en
      · simp [List.head?_eq_none_iff] at he
        simp [he]
      · constructor
        · intro _
          constructor
          · intro hnil
            rw [hnil] at hs
            simp at hs
          · intro hnil
            rw [hnil] at he
            simp at he
        · intro _
          exact ⟨_, rfl⟩
  · intro sn en hs he
    unfold Subprocess.init
    rw [hs, he]

/-- C3 amended witness: a well-formed children graph with exactly one
startEvent and one endEvent. -/
theorem subprocess_init_amended_witness :
    Subprocess.init "sp" "nm" spCh = .ok (.subprocess "sp" "nm" spCh "s" "e") :=
  (subprocess_init_amended "sp" "nm" spCh).2
    (nd "s" (bpmnTag "startEvent")) (nd "e" (bpmnTag "endEvent")) (by rfl) (by rfl)

/-- C5: when an `Edge` is rendered with the full top-level graph mapping,
the source endpoint is replaced by the looked-up item's `end_node_id` and
the target endpoint by the looked-up item's `start_node_id`.  First
conjunct: a plain `Node` (any node variant) source resolves to its own id
— the substitution is the identity — while an endpoint id not present in
the mapping (e.g. a nested subprocess's id) is rendered unchanged.  Second
conjunct: a `Subprocess` source contributes its internal end-event id and
a `Subprocess` target its internal start-event id. -/
theorem edge_to_dot_endpoint_resolution :
    (∀ (g : List Item) (eid src tgt nid ntag nname : String) (si : Bool)
        (co : Option String) (ex : List (String × Option String)) (k : NodeKind),
        Graph.get g src = some (.node nid ntag nname si co ex k) →
        Graph.get g tgt = none →
        Edge.to_dot (some g) none eid src tgt none none = .ok (src ++ " -> " ++ tgt))
    ∧ (∀ (g : List Item) (eid src tgt sid snm tid tnm : String)
        (sch tch : List Item) (ss se ts te : String),
        Graph.get g src = some (.subprocess sid snm sch ss se) →
        Graph.get g tgt = some (.subprocess tid tnm tch ts te) →
        Edge.to_dot (some g) none eid src tgt none none = .ok (se ++ " -> " ++ ts)) := by
  constructor
  · intro g eid src tgt nid ntag nname si co ex k hsrc htgt
    have hid : nid = src := by simpa using Graph.get_id g src _ hsrc
    subst hid
    simp [Edge.to_dot, hsrc, htgt, Item.end_node_id, strTruthy]
  · intro g eid src tgt sid snm tid tnm sch tch ss se ts te hsrc htgt
    simp [Edge.to_dot, hsrc, htgt, Item.end_node_id, Item.start_node_id, strTruthy]

/-- C5 witness: in `gW`, a node source resolves to itself with an absent
target unchanged, per the first conjunct. -/
theorem edge_to_dot_endpoint_resolution_witness :
    Edge.to_dot (some gW) none "ed" "n1" "zz" none none = .ok ("n1" ++ " -> " ++ "zz") :=
  edge_to_dot_endpoint_resolution.1 gW "ed" "n1" "zz" "n1" (bpmnTag "task") "x" true
    none [] .plain (by rfl) (by rfl)

/-- C7: for every element whose parsed local tag name has no dedicated
handler (neither a module-level `handle_<tag>` function nor a
`TAG_HANDLERS` entry), and any remaining recursion budget, dispatch tries
the generic handlers in order: with all of `id`, `sourceRef`, `targetRef`
present (and truthy) the element goes to the Edge constructor; otherwise
with `id` present it goes to the plain Node constructor; otherwise the
element produces no graph item and raises nothing. -/
theorem generic_dispatch_order (fuel : Nat) (e : Element) (tg : Tag)
    (h1 : Tag.from_string e.tag = some tg)
    (h2 : Graph.has_dedicated_handler tg.tag = false) :
    Graph.process_element (fuel + 1) e =
      (if Graph.element_has_attribs e ["id", "sourceRef", "targetRef"] then
        Except.map some (Edge.from_element e)
      else if Graph.element_has_attribs e ["id"] then
        Except.map some (Node.from_element e)
      else .ok none) :=
  Graph.process_element_generic fuel e tg h1 h2

/-- C7 witness: dispatch of a `{http://x}foo` element carrying all three
edge attributes. -/
theorem generic_dispatch_order_witness :
    Graph.process_element 1 fooEdgeEl =
      (if Graph.element_has_attribs fooEdgeEl ["id", "sourceRef", "targetRef"] then
        Except.map some (Edge.from_element fooEdgeEl)
      else if Graph.element_has_attribs fooEdgeEl ["id"] then
        Except.map some (Node.from_element fooEdgeEl)
      else .ok none) :=
  generic_dispatch_order 0 fooEdgeEl ⟨"foo", "http://x"⟩ (by rfl) (by rfl)

/-- C1 counterexample: a `serviceTask` element in a foreign namespace.
`__get_handler_fn` selects `handle_serviceTask` from the local tag name
alone; the handler's tag check fails and raises
`UnsuitableHandlerException`, which `__process_element` does NOT catch for
dedicated handlers — the whole build (`Graph.__init__`) aborts with it,
contradicting the claim that such a mismatch never aborts the build. -/
theorem dispatch_mismatch_counterexample :
    Graph.build 1 [badServiceTask] = .error .unsuitableHandler
      ∧ Graph.process_element 1 badServiceTask = .error .unsuitableHandler :=
  ⟨by rfl, by rfl⟩

/-- C1 amended: the "handler unsuitable" signal is caught only in the
generic `OTHER_HANDLERS` loop — for an element whose local tag has no
dedicated handler, construction never aborts with it (first conjunct) —
while a dedicated per-tag handler's unsuitable signal propagates out of
dispatch and aborts the build, e.g. for `handle_serviceTask` on any
element whose local tag is `serviceTask` but whose full tag is not the
BPMN one (second conjunct). -/
theorem dispatch_mismatch_amended :
    (∀ (fuel : Nat) (e : Element) (tg : Tag),
        Tag.from_string e.tag = some tg →
        Graph.has_dedicated_handler tg.tag = false →
        Graph.process_element (fuel + 1) e ≠ .error .unsuitableHandler)
    ∧ (∀ (fuel : Nat) (e : Element) (tg : Tag),
        Tag.from_string e.tag = some tg →
        tg.tag = "serviceTask" →
        e.tag ≠ Tag.str (Tag.bpmn "serviceTask") →
        Graph.process_element (fuel + 1) e = .error .unsuitableHandler) := by
  constructor
  · intro fuel e tg h1 h2
    rw [Graph.process_element_generic fuel e tg h1 h2]
    by_cases hA : Graph.element_has_attribs e ["id", "sourceRef", "targetRef"]
    · rw [if_pos hA]
      intro hcontra
      rcases hE : Edge.from_element e with err | it <;> rw [hE] at hcontra
      · simp [Except.map] at hcontra
        subst hcontra
        exact edge_from_element_never_unsuitable e hE
      · simp [Except.map] at hcontra
    · rw [if_neg hA]
      by_cases hB : Graph.element_has_attribs e ["id"]
      · rw [if_pos hB]
        intro hcontra
        rcases hN : Node.from_element e with err | it <;> rw [hN] at hcontra
        · simp [Except.map] at hcontra
          subst hcontra
          exact node_from_element_never_unsuitable e hN
        · simp [Except.map] at hcontra
      · rw [if_neg hB]
        simp
  · intro fuel e tg h1 h2 h3
    simp only [Graph.process_element, h1]
    rw [h2]
    rw [if_neg (by decide), if_neg (by decide), if_pos rfl]
    have hbeq : (e.tag == Tag.str (Tag.bpmn "serviceTask")) = false :=
      beq_eq_false_iff_ne.mpr h3
    simp [handle_serviceTask, hbeq, Except.map]

/-- C1 amended witness: the generic-path element `fooEdgeEl` never aborts
with the unsuitable signal. -/
theorem dispatch_mismatch_amended_witness :
    Graph.process_element 1 fooEdgeEl ≠ .error .unsuitableHandler :=
  dispatch_mismatch_amended.1 0 fooEdgeEl ⟨"foo", "http://x"⟩ (by rfl) (by rfl)

/-- C8 counterexample: a `serviceTask` element with an `id` but no `name`
attribute.  The claim says every node variant defaults the name to
`<no_name>`; `ServiceTask.from_element` instead reads
`element.attrib['name']` and construction fails with a `KeyError`. -/
theorem name_default_counterexample :
    ServiceTask.from_element sEl = .error (.keyError "name")
      ∧ handle_serviceTask sEl = .error (.keyError "name") :=
  ⟨by rfl, by rfl⟩

/-- C8 amended: only plain `Node` and `Gateway` read the `name` attribute
with `attrib.get` and default an absent name to the literal `<no_name>`
(first two conjuncts); `ServiceTask`, `BoundaryEvent`, `UserTask`,
`CallActivity` and `IntermediateCatchEvent` subscript
`element.attrib['name']` and fail construction with `KeyError('name')`
when it is absent (remaining conjuncts; for the two listener/extras
scanners the element is taken childless so the preceding descendant scans
succeed trivially). -/
theorem name_default_amended :
    (∀ (e : Element) (i : String),
        e.attrib_get "id" = some i → e.attrib_get "name" = none →
        Node.from_element e = .ok (.node i e.tag "<no_name>" true none [] .plain))
    ∧ (∀ (e : Element) (i : String),
        e.attrib_get "id" = some i → e.attrib_get "name" = none →
        Gateway.from_element e = .ok (.node i e.tag "<no_name>" true none [] .gateway))
    ∧ (∀ (e : Element) (i : String),
        e.attrib_get "id" = some i → e.attrib_get "name" = none →
        ServiceTask.from_element e = .error (.keyError "name"))
    ∧ (∀ (e : Element) (i : String),
        e.attrib_get "id" = some i → e.attrib_get "name" = none →
        BoundaryEvent.from_element e = .error (.keyError "name"))
    ∧ (∀ (fuel : Nat) (e : Element) (i : String),
        e.children = [] → e.attrib_get "id" = some i → e.attrib_get "name" = none →
        UserTask.from_element fuel e = .error (.keyError "name"))
    ∧ (∀ (e : Element) (i : String),
        e.attrib_get "id" = some i → e.attrib_get "name" = none →
        CallActivity.from_element e = .error (.keyError "name"))
    ∧ (∀ (fuel : Nat) (e : Element) (i : String),
        e.children = [] → e.attrib_get "id" = some i → e.attrib_get "name" = none →
        IntermediateCatchEvent.from_element fuel e = .error (.keyError "name")) := by
  refine ⟨?_, ?_, ?_, ?_, ?_, ?_, ?_⟩
  · intro e i hid hname
    simp [Node.from_element, Element.attrib_item, hid, hname, name_if]
  · intro e i hid hname
    simp [Gateway.from_element, Element.attrib_item, hid, hname, name_if]
  · intro e i hid hname
    simp [ServiceTask.from_element, Element.attrib_item, hid, hname]
  · intro e i hid hname
    simp [BoundaryEvent.from_element, Element.attrib_item, hid, hname]
  · intro fuel e i hch hid hname
    simp [UserTask.from_element, Element.findall_fuel_nil _ fuel e hch,
      Element.attrib_item, hid, hname]
    rfl
  · intro e i hid hname
    simp [CallActivity.from_element, Element.attrib_item, hid, hname]
  · intro fuel e i hch hid hname
    simp [IntermediateCatchEvent.from_element, IntermediateCatchEvent.get_extras,
      IntermediateCatchEvent.msg_extra, IntermediateCatchEvent.dur_extra,
      Element.findall_fuel_nil _ fuel e hch, Element.attrib_item, hid, hname]

/-- C8 amended witness: a plain element with an `id` and no `name` gets the
`<no_name>` placeholder. -/
theorem name_default_amended_witness :
    Node.from_element nEl = .ok (.node "n1" nEl.tag "<no_name>" true none [] .plain) :=
  name_default_amended.1 nEl "n1" (by rfl) (by rfl)

/-- C10: UserTask label rendering is partial.  The userTask element `uEl`
carries one `taskListener` child with an `event` and an `expression` but no
`class` attribute; its construction succeeds (first conjunct), but
rendering its label with task listeners shown (`params = None` shows them)
applies the short-name computation `class_name.split('.')` to `None` and
fails with an `AttributeError` (second conjunct) instead of returning a
label. -/
theorem usertask_label_partial :
    UserTask.from_element 2 uEl
        = .ok (.node "u1" (bpmnTag "userTask") "U" true (some "#e8d1ff") []
            (.user [⟨"create", none, some "e"⟩]))
      ∧ UserTask.get_label "U" "u1" [⟨"create", none, some "e"⟩] none
          = .error .attributeError :=
  ⟨by rfl, by rfl⟩

/-- C4 counterexample: in `gEx` the exception subprocess (named `X`) has
the empty id, so the claimed removal set is just `{""}` — whose one-hop
downstream is empty, because no edge has source `""` — and node `b` (whose
`adjacent` is `{"b"}`, disjoint from `{""}`) should remain.  But
`get_edges` treats the falsy source id `""` as "no filter", returns ALL
edges, and the code removes `b` and the edge `e1` as well: the code keeps
only `a`, while the claimed filter keeps `e1`, `a` and `b`. -/
theorem remove_error_handling_counterexample :
    spec_removal_set gEx "X" = [""]
      ∧ (remove_error_handling gEx "X").map Item.id = ["a"]
      ∧ (Graph.remove_adjacent gEx (spec_removal_set gEx "X")).map Item.id
          = ["e1", "a", "b"] :=
  ⟨by rfl, by rfl, by rfl⟩

/-- C4 amended: PROVIDED every matching exception subprocess has a
non-empty id (an empty id makes `get_edges` skip its source filter and
pull in every edge target), error-handling removal removes exactly the
items adjacent to {boundary event ids} ∪ {matching subprocess ids} ∪
{target ids of edges whose source is such a subprocess id} — one hop only
(first conjunct), i.e. the result is the filter of the graph keeping every
item, in order, whose `adjacent` set does not intersect that set (second
conjunct; so a node two or more hops downstream survives unless its
`adjacent` independently intersects the set). -/
theorem remove_error_handling_amended (g : List Item) (name : String)
    (hne : ∀ it ∈ g, it.isSubprocess = true → it.sp_name = some name → it.id ≠ "")
    (hnd : (g.map Item.id).Nodup) :
    remove_error_handling g name = Graph.remove_adjacent g (spec_removal_set g name)
      ∧ remove_error_handling g name
          = g.filter (fun item =>
              !((spec_removal_set g name).any (fun i => (item.adjacent).contains i))) := by
  have hds : ∀ sid ∈ (g.filter
      (fun sp => sp.isSubprocess && sp.sp_name == some name)).map Item.id,
      Graph.get_downstream_nodes g sid
        = ((g.filter Item.isEdge).filter
            (fun edge => edge.source_node == some sid)).filterMap Item.target_node := by
    intro sid hsid
    simp [List.mem_map, List.mem_filter] at hsid
    obtain ⟨sp, ⟨hmem, hsub, hnm⟩, hid⟩ := hsid
    have hne' : sid ≠ "" := hid ▸ hne sp hmem hsub hnm
    simp [Graph.get_downstream_nodes, Graph.get_edges, strTruthy,
      beq_eq_false_iff_ne.mpr hne']
  have h1 : remove_error_handling g name
      = Graph.remove_adjacent g (spec_removal_set g name) := by
    unfold remove_error_handling spec_removal_set
    simp only
    congr 2
    rw [List.map_congr_left hds]
  refine ⟨h1, ?_⟩
  rw [h1, Graph.remove_adjacent_eq_filter g _ hnd]

/-- C4 amended witness: the well-formed scenario `gEh` — the code removes
the boundary event, the subprocess, its one-hop downstream node and every
touching edge, and keeps the attachment activity `A` and the two-hop node
`n2`. -/
theorem remove_error_handling_amended_witness :
    remove_error_handling gEh "X" = Graph.remove_adjacent gEh (spec_removal_set gEh "X") :=
  (remove_error_handling_amended gEh "X" (by decide) (by decide)).1
